import Mathlib

/-!
Shallow embedding of the buyback_tolkien backend (backend/main.py and
backend/services/burn_tokens.py).

Modelling conventions:
- Python floats are idealised as rationals (ℚ); Python's `round(x, n)`
  (round-half-to-even on the scaled value) is `pyRound x n`.
- External HTTP/RPC calls (Pump Portal, Solana RPC, Helius) are oracles:
  each evaluation cycle receives an environment record holding the outcome
  every external call would produce.  The code around those calls is
  translated faithfully.
- Python exception semantics: `except Exception` does not catch
  `SystemExit` (which derives from `BaseException` only).  `PyExc`
  distinguishes the two.  A function whose Python body can be left by an
  uncaught exception returns the mutated global state paired with
  `Option PyExc` (the escaping exception, if any), mirroring that global
  `STATE` mutations performed before the raise persist.
- `now_iso()` is an oracle string supplied by the environment.
-/

namespace Tolkien

/-- Round a rational to the nearest integer, ties to even — the rounding of
Python's builtin `round`.  Uses the executable `Rat.floor` (identical to
`Int.floor` on ℚ) so concrete instances evaluate by `decide`. -/
def roundHalfEven (x : ℚ) : ℤ :=
  let f := Rat.floor x
  let frac := x - f
  if frac < 1/2 then f
  else if 1/2 < frac then f + 1
  else if f % 2 = 0 then f else f + 1

/-- Python's `round(x, n)` for `n ≥ 0`, idealised over ℚ. -/
def pyRound (x : ℚ) (n : ℕ) : ℚ :=
  (roundHalfEven (x * 10 ^ n) : ℚ) / 10 ^ n

/-- Truncation toward zero, the `ROUND_DOWN` mode of
`Decimal.to_integral_value` used in burn_tokens.py. -/
def ratTowardZero (q : ℚ) : ℤ :=
  if 0 ≤ q then Rat.floor q else -Rat.floor (-q)

/-- Python exceptions, split by whether `except Exception` catches them.
`systemExit` models `SystemExit`, which derives from `BaseException` only
and therefore passes through every `except Exception` handler in main.py. -/
inductive PyExc where
  | exc (msg : String)
  | systemExit (msg : String)
deriving DecidableEq

/-- Truthiness of an optional string, as Python's `if sig:` sees it:
`None` and the empty string are falsy. -/
def pyTruthy : Option String → Bool
  | none => false
  | some s => !s.isEmpty

/-- A transaction-log entry, the dict literal built by `push_tx`. -/
structure TxRecord where
  signature : Option String
  kind : String
  amount_sol : ℚ
  status : String
  timestamp : String
  description : String
deriving DecidableEq

/-- The global `STATE` dict of main.py. -/
structure DashState where
  price_usd : ℚ
  volume_change_pct : ℚ
  buybacks_usd : ℚ
  burned_usd : ℚ
  market_cap_usd : ℚ
  supply_burned_pct : ℚ
  last_goal_bucket : ℤ
  tx : List TxRecord
deriving DecidableEq

/-- The environment-derived configuration of main.py that the embedded
functions branch on. -/
structure Config where
  wallet_address : String
  helius_api_key : String
  token_mint : String

/-- GOAL_STEP = 100_000.0, the $100k trigger size. -/
def GOAL_STEP : ℚ := 100000

/-- The record built by `push_tx` before insertion.  Python's
`"confirmed" if sig else "recorded"` uses string truthiness, and
`float(amount_sol or 0)` equals `amount_sol` on every numeric value. -/
def mk_tx_record (kind : String) (amount_sol : ℚ) (desc : String)
    (sig : Option String) (ts : String) : TxRecord :=
  { signature := sig
    kind := kind
    amount_sol := amount_sol
    status := if pyTruthy sig then "confirmed" else "recorded"
    timestamp := ts
    description := desc }

/-- Embeds `push_tx` of main.py: insert at index 0, then truncate the log
to its first 50 entries. -/
def push_tx (s : DashState) (kind : String) (amount_sol : ℚ) (desc : String)
    (sig : Option String) (ts : String) : DashState :=
  { s with tx := (mk_tx_record kind amount_sol desc sig ts :: s.tx).take 50 }

/-- Oracle outcomes for one run of `claim_creator_fees`: the two
`get_balance_sol` reads (which never raise; they return 0.0 on failure)
and the Pump Portal claim submission (signature or raised message). -/
structure ClaimEnv where
  balanceBefore : ℚ
  trade : Except String String
  balanceAfter : ℚ

/-- Embeds `claim_creator_fees` of main.py: balance delta accounting,
floored at 0 and rounded to 6 decimals.  The `time.sleep(2.0)` settle
delay has no functional content.  Raised `Exception`s are the `.error`
case. -/
def claim_creator_fees (cfg : Config) (env : ClaimEnv) :
    Except String (String × ℚ) :=
  if cfg.wallet_address = "" then Except.error "Missing WALLET_ADDRESS"
  else
    match env.trade with
    | Except.error m => Except.error m
    | Except.ok sig =>
        Except.ok (sig, max 0 (pyRound (env.balanceAfter - env.balanceBefore) 6))

/-- Embeds `buy_back_sol` of main.py: rejects non-positive amounts with a
`ValueError`, otherwise submits the Pump Portal buy (oracle). -/
def buy_back_sol (amount_sol : ℚ) (trade : ℚ → Except String String) :
    Except String String :=
  if amount_sol ≤ 0 then Except.error "amount_sol must be > 0"
  else trade amount_sol

/-- Oracle outcomes for one run of `burn_tokens` in
services/burn_tokens.py, in the order the source performs them.
`loadKeypair` failing models the `SystemExit` of
`load_keypair_from_base58`; `getMintDecimals` and `ensureAta` failures are
ordinary `Exception`s; `rawBalance` is the raw token-unit balance read
from the ATA (0 when the account is missing); `sendBurn` is the burn
submission plus confirmation. -/
structure BurnEnv where
  loadKeypair : Except String Unit
  getMintDecimals : Except String ℕ
  ensureAta : Except String Unit
  rawBalance : ℤ
  sendBurn : ℤ → Except String String

/-- Embeds `burn_tokens` of services/burn_tokens.py.  Every `raise
SystemExit(...)` in the source becomes `PyExc.systemExit`; `RuntimeError`
and transport errors become `PyExc.exc`. -/
def burn_tokens (amount_tokens : Option ℚ) (burn_all : Bool)
    (env : BurnEnv) : Except PyExc String :=
  match env.loadKeypair with
  | Except.error m =>
      Except.error (PyExc.systemExit ("Invalid WALLET_PRIVATE_KEY base58: " ++ m))
  | Except.ok _ =>
  match env.getMintDecimals with
  | Except.error m => Except.error (PyExc.exc m)
  | Except.ok decimals =>
  match env.ensureAta with
  | Except.error m => Except.error (PyExc.exc m)
  | Except.ok _ =>
  let raw_bal : ℤ := env.rawBalance
  if raw_bal ≤ 0 then
    Except.error (PyExc.systemExit "Nothing to burn: token balance is 0")
  else
    let factor : ℚ := 10 ^ decimals
    let chosen : Except PyExc ℤ :=
      if burn_all then Except.ok raw_bal
      else
        match amount_tokens with
        | none => Except.error (PyExc.systemExit "--amount is required unless --all is set")
        | some amt =>
            let raw_to_burn := ratTowardZero (amt * factor)
            if raw_to_burn ≤ 0 then
              Except.error (PyExc.systemExit "Amount after decimals rounds to zero")
            else if raw_bal < raw_to_burn then
              Except.error (PyExc.systemExit "Not enough balance to burn the requested amount")
            else Except.ok raw_to_burn
    match chosen with
    | Except.error e => Except.error e
    | Except.ok raw_to_burn =>
        match env.sendBurn raw_to_burn with
        | Except.error m => Except.error (PyExc.exc m)
        | Except.ok sig => Except.ok sig

/-- Embeds `burn_recently_bought` of main.py: calls
`burn_tokens(None, burn_all=True)` inside `try/except Exception`.  An
ordinary `Exception` is swallowed and `None` returned; a `SystemExit`
is not caught and escapes. -/
def burn_recently_bought (env : BurnEnv) : Except PyExc (Option String) :=
  match burn_tokens none true env with
  | Except.ok sig => Except.ok (some sig)
  | Except.error e =>
      match e with
      | PyExc.exc _ => Except.ok none
      | PyExc.systemExit m => Except.error (PyExc.systemExit m)

/-- Oracle outcomes for one evaluation cycle of
`process_goal_if_crossed`. -/
structure PipeEnv where
  claimEnv : ClaimEnv
  buyTrade : ℚ → Except String String
  burnEnv : BurnEnv
  now : String

/-- Embeds `process_goal_if_crossed` of main.py.  The pair's second
component is the exception escaping the function, if any (only a
`SystemExit` from the burn stage can escape, since every stage is wrapped
in `except Exception`); the first component is the global state as left
behind, mutations before the raise included. -/
def process_goal_if_crossed (s : DashState) (cfg : Config) (env : PipeEnv) :
    DashState × Option PyExc :=
  let mc := s.market_cap_usd
  let current_bucket : ℤ := Rat.floor (mc / GOAL_STEP)
  if current_bucket ≤ s.last_goal_bucket then (s, none)
  else
    let s1 := { s with last_goal_bucket := current_bucket }
    match claim_creator_fees cfg env.claimEnv with
    | Except.error e =>
        (push_tx s1 "claim" 0 ("Claim failed: " ++ e) none env.now, none)
    | Except.ok (claim_sig, claimed_sol) =>
        let s2 := push_tx s1 "claim" claimed_sol
          ("Claimed creator fees: " ++ toString claimed_sol ++ " SOL")
          (some claim_sig) env.now
        let buy_amount := pyRound (claimed_sol * (1/4)) 6
        if buy_amount ≤ 0 then
          (push_tx s2 "buyback" 0 "No buyback (claimed 0 SOL)" none env.now, none)
        else
          match buy_back_sol buy_amount env.buyTrade with
          | Except.error e =>
              (push_tx s2 "buyback" 0 ("Buyback failed: " ++ e) none env.now, none)
          | Except.ok buy_sig =>
              let s3 := push_tx s2 "buyback" buy_amount
                ("Executed buy-back of " ++ toString buy_amount ++ " SOL")
                (some buy_sig) env.now
              let s4 := { s3 with buybacks_usd := s3.buybacks_usd + buy_amount * s3.price_usd }
              match burn_recently_bought env.burnEnv with
              | Except.ok burn_sig =>
                  let s5 := push_tx s4 "burn" buy_amount
                    ("Burned tokens bought with " ++ toString buy_amount ++ " SOL")
                    burn_sig env.now
                  let s6 := { s5 with burned_usd := s5.burned_usd + buy_amount * s5.price_usd }
                  ({ s6 with supply_burned_pct := pyRound (min 100 (s6.supply_burned_pct + 1/20)) 4 }, none)
              | Except.error e =>
                  match e with
                  | PyExc.exc m =>
                      (push_tx s4 "burn" 0 ("Burn failed: " ++ m) none env.now, none)
                  | PyExc.systemExit m => (s4, some (PyExc.systemExit m))

/-- Parsed fields of a successful Helius `getAsset` response, each
optional exactly as `dict.get` may yield `None`. -/
structure MarketFetch where
  price_per_token : Option ℚ
  supply : Option ℚ
  decimals : Option ℤ

/-- Oracle for one call of `refresh_market_data`: the wall clock
(`time.time()`) and the request/parse outcome. -/
structure MarketEnv where
  now : ℚ
  fetch : Except String MarketFetch

/-- Embeds `refresh_market_data` of main.py.  `lastT` is the module-level
`_last_helius_t`; the result pairs the updated state with the updated
timestamp.  Failures are soft: state and timestamp are kept. -/
def refresh_market_data (s : DashState) (lastT : ℚ) (cfg : Config)
    (env : MarketEnv) : DashState × ℚ :=
  if env.now - lastT < 20 then (s, lastT)
  else if cfg.helius_api_key = "" then (s, lastT)
  else
    match env.fetch with
    | Except.error _ => (s, lastT)
    | Except.ok d =>
        let price := d.price_per_token.getD 0
        let adjusted_supply := d.supply.getD 0 / (10 : ℚ) ^ d.decimals.getD 0
        let mc := price * adjusted_supply
        ({ s with price_usd := pyRound price 8, market_cap_usd := pyRound mc 2 }, env.now)

/-- The JSON body of `GET /dashboard` (the `Dashboard` pydantic model). -/
structure Dashboard where
  price_usd : ℚ
  volume_change_pct : ℚ
  buybacks_usd : ℚ
  burned_usd : ℚ
  market_cap_usd : ℚ
  next_goal_usd : ℚ
  next_goal_progress_pct : ℚ
  supply_burned_pct : ℚ
  transactions : List TxRecord
  token_mint : String
deriving DecidableEq

/-- Embeds the `get_dashboard` handler of main.py: refresh market data,
run the goal pipeline, then compute progress within the current bucket.
The result carries the final global state and Helius timestamp, and
either the response body or the exception that escaped the pipeline. -/
def get_dashboard (s : DashState) (lastT : ℚ) (cfg : Config)
    (menv : MarketEnv) (penv : PipeEnv) :
    (DashState × ℚ) × Except PyExc Dashboard :=
  let r1 := refresh_market_data s lastT cfg menv
  let r2 := process_goal_if_crossed r1.1 cfg penv
  match r2.2 with
  | some e => ((r2.1, r1.2), Except.error e)
  | none =>
      let s2 := r2.1
      let mc := s2.market_cap_usd
      let bucket_start : ℚ := (Rat.floor (mc / GOAL_STEP) : ℚ) * GOAL_STEP
      let next_goal := bucket_start + GOAL_STEP
      let progress_pct : ℚ :=
        if GOAL_STEP ≤ 0 then 0
        else max 0 (min 100 ((mc - bucket_start) / GOAL_STEP * 100))
      ((s2, r1.2), Except.ok
        { price_usd := s2.price_usd
          volume_change_pct := s2.volume_change_pct
          buybacks_usd := s2.buybacks_usd
          burned_usd := s2.burned_usd
          market_cap_usd := mc
          next_goal_usd := next_goal
          next_goal_progress_pct := pyRound progress_pct 2
          supply_burned_pct := s2.supply_burned_pct
          transactions := s2.tx
          token_mint := cfg.token_mint })

/-- Embeds the `POST /simulate/bump-mc` handler: adds `delta_usd` to the
market cap and returns the new value. -/
def bump_market_cap (s : DashState) (delta_usd : ℚ) : DashState × ℚ :=
  ({ s with market_cap_usd := s.market_cap_usd + delta_usd },
   s.market_cap_usd + delta_usd)

/-! Concrete sample states and environments used to instantiate the
theorems below on closed inputs. -/

/-- A transaction record used to pre-populate sample logs. -/
def txSeed : TxRecord := ⟨none, "claim", 0, "recorded", "t0", "seed entry"⟩

/-- The initial `STATE` of main.py: every number 0, empty log. -/
def sEmpty : DashState := ⟨0, 0, 0, 0, 0, 0, 0, []⟩

/-- A state sitting in bucket 2 with bucket 1 already processed. -/
def sA : DashState :=
  { sEmpty with price_usd := 3, market_cap_usd := 250000, last_goal_bucket := 1 }

/-- A state in bucket 1 with bucket 0 processed (single fresh crossing). -/
def sB : DashState :=
  { sEmpty with price_usd := 3, market_cap_usd := 150000 }

/-- A state with market cap $1: bucket 0, not a multiple of 100000. -/
def sMc1 : DashState := { sEmpty with market_cap_usd := 1 }

/-- A state three buckets ahead of the last processed one. -/
def sMulti : DashState := { sEmpty with market_cap_usd := 350000 }

/-- A state whose transaction log is exactly full (50 entries). -/
def s50 : DashState := { sEmpty with tx := List.replicate 50 txSeed }

/-- Configuration with wallet and mint set but no Helius key. -/
def cfgA : Config := ⟨"WALLET", "", "MINT"⟩

/-- Configuration with a Helius key configured. -/
def cfgK : Config := ⟨"WALLET", "HKEY", "MINT"⟩

/-- Claim oracle: submission succeeds and the balance delta is 8 SOL. -/
def claimEnvOk : ClaimEnv := ⟨0, Except.ok "csig", 8⟩

/-- Claim oracle: submission succeeds but no balance change (0 claimed). -/
def claimEnvZero : ClaimEnv := ⟨5, Except.ok "csig", 5⟩

/-- Claim oracle: the Pump Portal request raises. -/
def claimEnvFail : ClaimEnv := ⟨0, Except.error "rpc down", 0⟩

/-- Burn oracle: everything succeeds, positive token balance. -/
def burnEnvOk : BurnEnv :=
  ⟨Except.ok (), Except.ok 6, Except.ok (), 1000000, fun _ => Except.ok "bsig"⟩

/-- Burn oracle: the wallet token balance is zero. -/
def burnEnvZero : BurnEnv := { burnEnvOk with rawBalance := 0 }

/-- Burn oracle: fetching mint decimals raises an ordinary Exception. -/
def burnEnvBoom : BurnEnv := { burnEnvOk with getMintDecimals := Except.error "boom" }

/-- Pipeline oracle: claim 8 SOL, buy succeeds, burn succeeds. -/
def envOk : PipeEnv := ⟨claimEnvOk, fun _ => Except.ok "buysig", burnEnvOk, "T1"⟩

/-- Pipeline oracle: like `envOk` but the token balance is 0 at burn time. -/
def envZeroBal : PipeEnv := { envOk with burnEnv := burnEnvZero }

/-- Pipeline oracle: like `envOk` but the burn raises an Exception. -/
def envBurnBoom : PipeEnv := { envOk with burnEnv := burnEnvBoom }

/-- Pipeline oracle: claim succeeds with 0 SOL claimed. -/
def envClaimZero : PipeEnv := { envOk with claimEnv := claimEnvZero }

/-- Pipeline oracle: the claim stage raises. -/
def envClaimFail : PipeEnv := { envOk with claimEnv := claimEnvFail }

/-- Market oracle inside the cache TTL (no refresh happens). -/
def menvQuiet : MarketEnv := ⟨0, Except.error "offline"⟩

/-- Market oracle past the TTL with a successful fetch. -/
def menvFresh : MarketEnv := ⟨30, Except.ok ⟨some (3/2), some 1000000, some 2⟩⟩

/-! Helper lemmas. -/

/-- The executable `Rat.floor` agrees with Mathlib's `Int.floor` on ℚ. -/
lemma ratFloor_eq_intFloor (q : ℚ) : (Rat.floor q : ℤ) = ⌊q⌋ := by
  rw [Rat.floor_def', Rat.floor_def]

lemma roundHalfEven_def (x : ℚ) :
    roundHalfEven x =
      if x - (⌊x⌋ : ℚ) < 1/2 then ⌊x⌋
      else if 1/2 < x - (⌊x⌋ : ℚ) then ⌊x⌋ + 1
      else if ⌊x⌋ % 2 = 0 then ⌊x⌋ else ⌊x⌋ + 1 := by
  unfold roundHalfEven
  rw [ratFloor_eq_intFloor]

lemma roundHalfEven_intCast (k : ℤ) : roundHalfEven (k : ℚ) = k := by
  rw [roundHalfEven_def, Int.floor_intCast]
  norm_num

lemma floor_le_roundHalfEven (x : ℚ) : ⌊x⌋ ≤ roundHalfEven x := by
  rw [roundHalfEven_def]
  split_ifs <;> omega

lemma roundHalfEven_le_floor_add_one (x : ℚ) : roundHalfEven x ≤ ⌊x⌋ + 1 := by
  rw [roundHalfEven_def]
  split_ifs <;> omega

lemma roundHalfEven_nonneg {x : ℚ} (h : 0 ≤ x) : 0 ≤ roundHalfEven x :=
  le_trans (Int.floor_nonneg.2 h) (floor_le_roundHalfEven x)

lemma roundHalfEven_le_of_le {x : ℚ} {m : ℤ} (h : x ≤ (m : ℚ)) :
    roundHalfEven x ≤ m := by
  have hf : ⌊x⌋ ≤ m := by
    have := Int.floor_le_floor h
    simpa using this
  rcases lt_or_eq_of_le hf with hlt | heq
  · calc roundHalfEven x ≤ ⌊x⌋ + 1 := roundHalfEven_le_floor_add_one x
      _ ≤ m := by omega
  · rw [roundHalfEven_def]
    have hx : x - (⌊x⌋ : ℚ) ≤ 0 := by
      rw [heq]
      linarith
    have h1 : x - (⌊x⌋ : ℚ) < 1/2 := by linarith
    rw [if_pos h1]
    exact hf

lemma roundHalfEven_eq_zero_iff {x : ℚ} (hx : 0 ≤ x) :
    roundHalfEven x = 0 ↔ x ≤ 1/2 := by
  constructor
  · intro h
    by_contra hgt
    push_neg at hgt
    have hfl : 0 ≤ ⌊x⌋ := Int.floor_nonneg.2 hx
    rcases Nat.lt_or_ge 0 ⌊x⌋.toNat with hpos | hz
    · have h1 : 1 ≤ ⌊x⌋ := by omega
      have := floor_le_roundHalfEven x
      omega
    · have h0 : ⌊x⌋ = 0 := by omega
      rw [roundHalfEven_def, h0] at h
      simp only [Int.cast_zero, sub_zero] at h
      have hnot : ¬ x < 1/2 := by linarith
      rw [if_neg hnot, if_pos hgt] at h
      omega
  · intro h
    have h0 : ⌊x⌋ = 0 := by
      rw [Int.floor_eq_zero_iff]
      exact ⟨hx, by linarith⟩
    rw [roundHalfEven_def, h0]
    simp only [Int.cast_zero, sub_zero]
    rcases lt_or_eq_of_le h with hlt | heq
    · rw [if_pos hlt]
    · rw [if_neg (by rw [heq]; exact lt_irrefl _),
        if_neg (by rw [heq]; exact lt_irrefl _), if_pos (by norm_num)]

lemma pyRound_eq_self {x : ℚ} {n : ℕ} (k : ℤ) (hk : x * 10 ^ n = (k : ℚ)) :
    pyRound x n = x := by
  unfold pyRound
  rw [hk, roundHalfEven_intCast, ← hk]
  field_simp

lemma pyRound_nonneg {x : ℚ} (h : 0 ≤ x) (n : ℕ) : 0 ≤ pyRound x n := by
  unfold pyRound
  apply div_nonneg _ (by positivity)
  exact_mod_cast roundHalfEven_nonneg (by positivity)

lemma pyRound_le_intCast {x : ℚ} {m : ℤ} (h : x ≤ (m : ℚ)) (n : ℕ) :
    pyRound x n ≤ (m : ℚ) := by
  unfold pyRound
  rw [div_le_iff (by positivity)]
  have hx : x * 10 ^ n ≤ ((m * 10 ^ n : ℤ) : ℚ) := by
    push_cast
    have hp : (0 : ℚ) < 10 ^ n := by positivity
    nlinarith
  have := roundHalfEven_le_of_le hx
  calc ((roundHalfEven (x * 10 ^ n) : ℤ) : ℚ) ≤ ((m * 10 ^ n : ℤ) : ℚ) := by exact_mod_cast this
    _ = (m : ℚ) * 10 ^ n := by push_cast; ring

lemma countP_take_le (p : TxRecord → Bool) (l : List TxRecord) (n : ℕ) :
    (l.take n).countP p ≤ l.countP p :=
  (List.take_sublist n l).countP_le p

lemma push_tx_tx (s : DashState) (kind : String) (amount_sol : ℚ)
    (desc : String) (sig : Option String) (ts : String) :
    (push_tx s kind amount_sol desc sig ts).tx
      = (mk_tx_record kind amount_sol desc sig ts :: s.tx).take 50 := rfl

/-- When the evaluation detects no new bucket, it returns immediately with
the state untouched and no exception. -/
lemma process_noop {s : DashState} (cfg : Config) (env : PipeEnv)
    (h : Rat.floor (s.market_cap_usd / GOAL_STEP) ≤ s.last_goal_bucket) :
    process_goal_if_crossed s cfg env = (s, none) := by
  unfold process_goal_if_crossed
  dsimp only
  rw [if_pos h]

/-- Whatever the stage outcomes, one evaluation leaves `market_cap_usd`
unchanged and sets `last_goal_bucket` to the max of its old value and the
current bucket. -/
lemma process_fields (s : DashState) (cfg : Config) (env : PipeEnv) :
    (process_goal_if_crossed s cfg env).1.market_cap_usd = s.market_cap_usd
    ∧ (process_goal_if_crossed s cfg env).1.last_goal_bucket
        = max s.last_goal_bucket (Rat.floor (s.market_cap_usd / GOAL_STEP)) := by
  unfold process_goal_if_crossed
  dsimp only
  split
  case isTrue hb => exact ⟨rfl, (max_eq_left hb).symm⟩
  case isFalse hb =>
    have hle := le_of_not_le hb
    split
    all_goals try split
    all_goals try split
    all_goals try split
    all_goals try split
    all_goals exact ⟨rfl, by rw [max_eq_right hle]; exact rfl⟩

/-- Consing a non-"claim" record and truncating does not raise the
"claim"-record count. -/
lemma countP_push_other_le (r : TxRecord) (l : List TxRecord)
    (h : (r.kind == "claim") = false) :
    ((r :: l).take 50).countP (fun x => x.kind == "claim")
      ≤ l.countP (fun x => x.kind == "claim") := by
  calc ((r :: l).take 50).countP (fun x => x.kind == "claim")
      ≤ (r :: l).countP (fun x => x.kind == "claim") := countP_take_le _ _ _
    _ = l.countP (fun x => x.kind == "claim") := by
        rw [List.countP_cons, h]
        simp

/-- Consing any record and truncating raises the "claim"-record count by
at most one. -/
lemma countP_push_any_le (r : TxRecord) (l : List TxRecord) :
    ((r :: l).take 50).countP (fun x => x.kind == "claim")
      ≤ l.countP (fun x => x.kind == "claim") + 1 := by
  calc ((r :: l).take 50).countP (fun x => x.kind == "claim")
      ≤ (r :: l).countP (fun x => x.kind == "claim") := countP_take_le _ _ _
    _ ≤ l.countP (fun x => x.kind == "claim") + 1 := by
        rw [List.countP_cons]
        split <;> omega

/-- One evaluation appends at most one record of kind "claim". -/
lemma process_claim_count (s : DashState) (cfg : Config) (env : PipeEnv) :
    ((process_goal_if_crossed s cfg env).1.tx.countP (fun r => r.kind == "claim"))
      ≤ s.tx.countP (fun r => r.kind == "claim") + 1 := by
  unfold process_goal_if_crossed
  dsimp only
  split
  case isTrue hb => exact Nat.le_succ_of_le le_rfl
  case isFalse hb =>
    split
    · -- claim stage failed: a single "claim" record is appended
      dsimp only [push_tx]
      exact countP_push_any_le _ _
    · -- claim succeeded
      have hclaim : ∀ csig claimed,
          ((mk_tx_record "claim" claimed
              ("Claimed creator fees: " ++ toString claimed ++ " SOL")
              (some csig) env.now :: s.tx).take 50).countP
            (fun x => x.kind == "claim")
          ≤ s.tx.countP (fun x => x.kind == "claim") + 1 :=
        fun _ _ => countP_push_any_le _ _
      split
      · -- no-buyback record of kind "buyback"
        dsimp only [push_tx]
        exact le_trans (countP_push_other_le _ _ (by rfl)) (hclaim _ _)
      · split
        · -- buyback failure record of kind "buyback"
          dsimp only [push_tx]
          exact le_trans (countP_push_other_le _ _ (by rfl)) (hclaim _ _)
        · split
          · -- burn record of kind "burn" atop a "buyback" record
            dsimp only [push_tx]
            exact le_trans (countP_push_other_le _ _ (by rfl))
              (le_trans (countP_push_other_le _ _ (by rfl)) (hclaim _ _))
          · split
            · -- burn Exception record of kind "burn"
              dsimp only [push_tx]
              exact le_trans (countP_push_other_le _ _ (by rfl))
                (le_trans (countP_push_other_le _ _ (by rfl)) (hclaim _ _))
            · -- SystemExit escape: only claim and buyback records
              dsimp only [push_tx]
              exact le_trans (countP_push_other_le _ _ (by rfl)) (hclaim _ _)

/-! Claim theorems. -/

/-- C1: `last_goal_bucket` is monotonically non-decreasing (per step and
over any sequence of evaluation cycles); whenever the current bucket
`floor(market_cap_usd / 100000)` exceeds it, it is set to the current
bucket whatever the stage outcomes (the embedding sequences the update
before the stages, as the source does); and re-evaluating the resulting
state — the market cap is unchanged by the pipeline — is a complete
no-op: same state, no exception, under any configuration and oracle. -/
theorem C1_last_goal_bucket_monotone_idempotent
    (s : DashState) (cfg cfg2 : Config) (env env2 : PipeEnv)
    (envs : List (Config × PipeEnv)) :
    s.last_goal_bucket ≤ (process_goal_if_crossed s cfg env).1.last_goal_bucket
    ∧ (s.last_goal_bucket < Rat.floor (s.market_cap_usd / GOAL_STEP) →
        (process_goal_if_crossed s cfg env).1.last_goal_bucket
          = Rat.floor (s.market_cap_usd / GOAL_STEP))
    ∧ process_goal_if_crossed (process_goal_if_crossed s cfg env).1 cfg2 env2
        = ((process_goal_if_crossed s cfg env).1, none)
    ∧ s.last_goal_bucket ≤
        (envs.foldl (fun t ce => (process_goal_if_crossed t ce.1 ce.2).1)
          s).last_goal_bucket := by
  obtain ⟨hmc, hlast⟩ := process_fields s cfg env
  refine ⟨?_, ?_, ?_, ?_⟩
  · rw [hlast]
    exact le_max_left _ _
  · intro h
    rw [hlast]
    exact max_eq_right (le_of_lt h)
  · apply process_noop
    rw [hmc, hlast]
    exact le_max_right _ _
  · clear hmc hlast
    induction envs generalizing s with
    | nil => exact le_rfl
    | cons ce rest ih =>
        calc s.last_goal_bucket
            ≤ (process_goal_if_crossed s ce.1 ce.2).1.last_goal_bucket := by
              rw [(process_fields s ce.1 ce.2).2]
              exact le_max_left _ _
          _ ≤ _ := ih _

/-- C1 witness: a fresh crossing at market cap $150k advances the bucket
to 1 and a second evaluation of the result is a no-op. -/
theorem C1_last_goal_bucket_monotone_idempotent_witness :
    sB.last_goal_bucket < Rat.floor (sB.market_cap_usd / GOAL_STEP)
    ∧ (process_goal_if_crossed sB cfgA envClaimFail).1.last_goal_bucket
        = Rat.floor (sB.market_cap_usd / GOAL_STEP)
    ∧ process_goal_if_crossed (process_goal_if_crossed sB cfgA envClaimFail).1 cfgA envOk
        = ((process_goal_if_crossed sB cfgA envClaimFail).1, none) := by
  have hlt : sB.last_goal_bucket < Rat.floor (sB.market_cap_usd / GOAL_STEP) := by
    with_unfolding_all decide
  have h := C1_last_goal_bucket_monotone_idempotent sB cfgA cfgA envClaimFail envOk []
  exact ⟨hlt, h.2.1 hlt, h.2.2.1⟩

/-- C10: when the market cap has crossed several $100k thresholds since
the last processed bucket, a single evaluation advances
`last_goal_bucket` directly to the current bucket and appends at most one
"claim" record — the pipeline runs at most once, not once per threshold. -/
theorem C10_multi_bucket_single_pipeline_run
    (s : DashState) (cfg : Config) (env : PipeEnv)
    (h : s.last_goal_bucket + 1 < Rat.floor (s.market_cap_usd / GOAL_STEP)) :
    (process_goal_if_crossed s cfg env).1.last_goal_bucket
        = Rat.floor (s.market_cap_usd / GOAL_STEP)
    ∧ ((process_goal_if_crossed s cfg env).1.tx.countP (fun r => r.kind == "claim"))
        ≤ s.tx.countP (fun r => r.kind == "claim") + 1 := by
  refine ⟨?_, process_claim_count s cfg env⟩
  rw [(process_fields s cfg env).2]
  exact max_eq_right (by omega)

/-- C10 witness: from bucket 0 to market cap $350k (bucket 3) in one
evaluation. -/
theorem C10_multi_bucket_single_pipeline_run_witness :
    sMulti.last_goal_bucket + 1 < Rat.floor (sMulti.market_cap_usd / GOAL_STEP)
    ∧ (process_goal_if_crossed sMulti cfgA envOk).1.last_goal_bucket
        = Rat.floor (sMulti.market_cap_usd / GOAL_STEP)
    ∧ ((process_goal_if_crossed sMulti cfgA envOk).1.tx.countP
        (fun r => r.kind == "claim"))
        ≤ sMulti.tx.countP (fun r => r.kind == "claim") + 1 := by
  have hlt : sMulti.last_goal_bucket + 1
      < Rat.floor (sMulti.market_cap_usd / GOAL_STEP) := by
    with_unfolding_all decide
  have h := C10_multi_bucket_single_pipeline_run sMulti cfgA envOk hlt
  exact ⟨hlt, h.1, h.2⟩

/-- C5: when a crossing is detected and the claim stage raises, the
evaluation returns normally having appended exactly one record — kind
"claim", amount 0, status "recorded", description "Claim failed: ..." —
with the bucket left advanced and every other state field unchanged; no
buyback or burn record is appended. -/
theorem C5_claim_failure_single_record
    (s : DashState) (cfg : Config) (env : PipeEnv) (m : String)
    (hcross : s.last_goal_bucket < Rat.floor (s.market_cap_usd / GOAL_STEP))
    (hclaim : claim_creator_fees cfg env.claimEnv = Except.error m) :
    process_goal_if_crossed s cfg env
      = ({ s with
            last_goal_bucket := Rat.floor (s.market_cap_usd / GOAL_STEP),
            tx := (mk_tx_record "claim" 0 ("Claim failed: " ++ m) none env.now
                    :: s.tx).take 50 }, none) := by
  unfold process_goal_if_crossed
  dsimp only
  rw [if_neg (not_le.mpr hcross), hclaim]
  exact rfl

/-- C5 witness: a failing claim at a fresh $150k crossing. -/
theorem C5_claim_failure_single_record_witness :
    process_goal_if_crossed sB cfgA envClaimFail
      = ({ sB with
            last_goal_bucket := Rat.floor (sB.market_cap_usd / GOAL_STEP),
            tx := [mk_tx_record "claim" 0 "Claim failed: rpc down" none "T1"] }, none) :=
  C5_claim_failure_single_record sB cfgA envClaimFail "rpc down"
    (by with_unfolding_all decide) (by with_unfolding_all rfl)

/-- C2 (code bug): on a zero token balance, `burn_tokens` raises
`SystemExit`, which derives from `BaseException` only; the
`except Exception` handlers in `burn_recently_bought` and in the burn
stage of `process_goal_if_crossed` do not catch it, so — contrary to the
documented per-stage error containment — it escapes the pipeline and the
dashboard read fails instead of returning. -/
theorem C2_burn_systemexit_escapes_dashboard :
    burn_tokens none true burnEnvZero
        = Except.error (PyExc.systemExit "Nothing to burn: token balance is 0")
    ∧ (process_goal_if_crossed sA cfgA envZeroBal).2
        = some (PyExc.systemExit "Nothing to burn: token balance is 0")
    ∧ (get_dashboard sA 0 cfgA menvQuiet envZeroBal).2
        = Except.error (PyExc.systemExit "Nothing to burn: token balance is 0") := by
  refine ⟨by with_unfolding_all rfl, by with_unfolding_all rfl,
    by with_unfolding_all rfl⟩

/-- C7: after every `push_tx`, the log is the new record consed onto the
old log truncated to 50 entries: it never exceeds 50 records, the newest
record is at the head, and when the log was already full the record
evicted is the oldest (the last element). -/
theorem C7_push_tx_cap_and_eviction (s : DashState) (kind : String)
    (amount_sol : ℚ) (desc : String) (sig : Option String) (ts : String) :
    (push_tx s kind amount_sol desc sig ts).tx
        = (mk_tx_record kind amount_sol desc sig ts :: s.tx).take 50
    ∧ (push_tx s kind amount_sol desc sig ts).tx.length ≤ 50
    ∧ (push_tx s kind amount_sol desc sig ts).tx.head?
        = some (mk_tx_record kind amount_sol desc sig ts)
    ∧ (s.tx.length = 50 →
        (push_tx s kind amount_sol desc sig ts).tx
          = mk_tx_record kind amount_sol desc sig ts :: s.tx.dropLast) := by
  refine ⟨rfl, ?_, rfl, ?_⟩
  · rw [push_tx_tx, List.length_take]
    exact min_le_left _ _
  · intro h
    rw [push_tx_tx, List.take_succ_cons, List.dropLast_eq_take, h]

/-- C7 witness: pushing onto a full 50-entry log keeps 50 entries and
drops exactly the oldest one. -/
theorem C7_push_tx_cap_and_eviction_witness :
    (push_tx s50 "burn" 1 "d" none "t").tx
      = mk_tx_record "burn" 1 "d" none "t" :: (List.replicate 50 txSeed).dropLast :=
  (C7_push_tx_cap_and_eviction s50 "burn" 1 "d" none "t").2.2.2 (by simp [s50])

/-- A record made with a non-empty signature string is "confirmed". -/
lemma mk_tx_record_status_of_ne {t : String} (ht : t ≠ "") (kind : String)
    (a : ℚ) (d ts : String) :
    (mk_tx_record kind a d (some t) ts).status = "confirmed" := by
  have hne : t.isEmpty = false := by
    cases htb : t.isEmpty
    · rfl
    · exact absurd ((String.isEmpty_iff t).1 htb) ht
  simp [mk_tx_record, pyTruthy, hne]

/-- On a 4-decimal percentage, the source's `round(min(100., p + 0.05), 4)`
is exact: it equals `min 100 (p + 1/20)`. -/
lemma supply_pct_round (p : ℚ) (k : ℤ) (hp : p = (k : ℚ) / 10000) :
    pyRound (min 100 (p + 1/20)) 4 = min 100 (p + 1/20) := by
  apply pyRound_eq_self (min 1000000 (k + 500))
  subst hp
  have h10 : ((10 : ℚ) ^ (4 : ℕ)) = 10000 := by norm_num
  rw [h10, min_mul_of_nonneg _ _ (by norm_num : (0:ℚ) ≤ 10000)]
  have e1 : (100 : ℚ) * 10000 = ((1000000 : ℤ) : ℚ) := by norm_num
  have e2 : ((k : ℚ) / 10000 + 1/20) * 10000 = ((k + 500 : ℤ) : ℚ) := by
    push_cast
    field_simp
    ring
  rw [e1, e2, ← Int.cast_min]

/-- The buy submission succeeds exactly when the oracle does, once the
positivity check passes. -/
lemma buy_back_sol_pos {B : ℚ} (hpos : 0 < B) (t : ℚ → Except String String) :
    buy_back_sol B t = t B := by
  unfold buy_back_sol
  rw [if_neg (not_le.mpr hpos)]

/-- C3 counterexample: with the burn raising an ordinary Exception
("boom" while fetching mint decimals), the cycle still credits
`burned_usd` (0 → 6) and `supply_burned_pct` (0 → 0.05), and the appended
burn record carries the success wording, not an error description —
refuting "on burn failure, append a record describing the error and leave
burned_usd and supply_burned_pct unchanged". -/
theorem C3_counterexample :
    burn_tokens none true burnEnvBoom = Except.error (PyExc.exc "boom")
    ∧ sB.burned_usd = 0
    ∧ (process_goal_if_crossed sB cfgA envBurnBoom).1.burned_usd = 6
    ∧ sB.supply_burned_pct = 0
    ∧ (process_goal_if_crossed sB cfgA envBurnBoom).1.supply_burned_pct = 1/20
    ∧ (process_goal_if_crossed sB cfgA envBurnBoom).1.tx.head?
        = some (mk_tx_record "burn" 2 "Burned tokens bought with 2 SOL" none "T1") := by
  refine ⟨by with_unfolding_all rfl, by with_unfolding_all rfl,
    by with_unfolding_all rfl, by with_unfolding_all rfl,
    by with_unfolding_all rfl, by with_unfolding_all rfl⟩

/-- C3 amended: in a cycle whose claim and buyback succeeded, the burn
stage behaves as follows.  If `burn_tokens` succeeds, a burn record with
the returned signature is appended (status "confirmed" when the signature
is non-empty), `burned_usd` gains `buyAmount * price_usd` and
`supply_burned_pct` becomes `min 100 (old + 0.05)`.  If `burn_tokens`
raises an ordinary Exception, `burn_recently_bought` swallows it and the
pipeline appends a burn record with signature absent (status "recorded")
whose description is the success wording, and still applies both counter
updates.  Only if `burn_tokens` raises `SystemExit` do the counters stay
unchanged — and then the exception escapes the evaluation. -/
theorem C3_burn_stage_outcomes
    (s : DashState) (cfg : Config) (env : PipeEnv) (csig : String)
    (claimed : ℚ) (bsig : String) (k : ℤ)
    (hcross : s.last_goal_bucket < Rat.floor (s.market_cap_usd / GOAL_STEP))
    (hclaim : claim_creator_fees cfg env.claimEnv = Except.ok (csig, claimed))
    (hpos : 0 < pyRound (claimed * (1/4)) 6)
    (hbuy : env.buyTrade (pyRound (claimed * (1/4)) 6) = Except.ok bsig)
    (hpct : s.supply_burned_pct = (k : ℚ) / 10000) :
    (∀ bsig2, burn_tokens none true env.burnEnv = Except.ok bsig2 →
        (process_goal_if_crossed s cfg env).1.burned_usd
            = s.burned_usd + pyRound (claimed * (1/4)) 6 * s.price_usd
        ∧ (process_goal_if_crossed s cfg env).1.supply_burned_pct
            = min 100 (s.supply_burned_pct + 1/20)
        ∧ (process_goal_if_crossed s cfg env).1.tx.head?
            = some (mk_tx_record "burn" (pyRound (claimed * (1/4)) 6)
                ("Burned tokens bought with "
                  ++ toString (pyRound (claimed * (1/4)) 6) ++ " SOL")
                (some bsig2) env.now)
        ∧ (bsig2 ≠ "" →
            (mk_tx_record "burn" (pyRound (claimed * (1/4)) 6)
              ("Burned tokens bought with "
                ++ toString (pyRound (claimed * (1/4)) 6) ++ " SOL")
              (some bsig2) env.now).status = "confirmed")
        ∧ (process_goal_if_crossed s cfg env).2 = none)
    ∧ (∀ m, burn_tokens none true env.burnEnv = Except.error (PyExc.exc m) →
        (process_goal_if_crossed s cfg env).1.burned_usd
            = s.burned_usd + pyRound (claimed * (1/4)) 6 * s.price_usd
        ∧ (process_goal_if_crossed s cfg env).1.supply_burned_pct
            = min 100 (s.supply_burned_pct + 1/20)
        ∧ (process_goal_if_crossed s cfg env).1.tx.head?
            = some (mk_tx_record "burn" (pyRound (claimed * (1/4)) 6)
                ("Burned tokens bought with "
                  ++ toString (pyRound (claimed * (1/4)) 6) ++ " SOL")
                none env.now)
        ∧ (mk_tx_record "burn" (pyRound (claimed * (1/4)) 6)
              ("Burned tokens bought with "
                ++ toString (pyRound (claimed * (1/4)) 6) ++ " SOL")
              none env.now).status = "recorded"
        ∧ (process_goal_if_crossed s cfg env).2 = none)
    ∧ (∀ m, burn_tokens none true env.burnEnv
          = Except.error (PyExc.systemExit m) →
        (process_goal_if_crossed s cfg env).1.burned_usd = s.burned_usd
        ∧ (process_goal_if_crossed s cfg env).1.supply_burned_pct
            = s.supply_burned_pct
        ∧ (process_goal_if_crossed s cfg env).2 = some (PyExc.systemExit m)) := by
  have hbb : buy_back_sol (pyRound (claimed * (1/4)) 6) env.buyTrade
      = Except.ok bsig := by
    rw [buy_back_sol_pos hpos]
    exact hbuy
  refine ⟨?_, ?_, ?_⟩
  · intro bsig2 hburn
    have hbr : burn_recently_bought env.burnEnv = Except.ok (some bsig2) := by
      unfold burn_recently_bought
      rw [hburn]
    have hp : process_goal_if_crossed s cfg env
        = ({ s with
              last_goal_bucket := Rat.floor (s.market_cap_usd / GOAL_STEP),
              buybacks_usd := s.buybacks_usd
                + pyRound (claimed * (1/4)) 6 * s.price_usd,
              burned_usd := s.burned_usd
                + pyRound (claimed * (1/4)) 6 * s.price_usd,
              supply_burned_pct :=
                pyRound (min 100 (s.supply_burned_pct + 1/20)) 4,
              tx := (mk_tx_record "burn" (pyRound (claimed * (1/4)) 6)
                      ("Burned tokens bought with "
                        ++ toString (pyRound (claimed * (1/4)) 6) ++ " SOL")
                      (some bsig2) env.now
                    :: (mk_tx_record "buyback" (pyRound (claimed * (1/4)) 6)
                          ("Executed buy-back of "
                            ++ toString (pyRound (claimed * (1/4)) 6) ++ " SOL")
                          (some bsig) env.now
                        :: (mk_tx_record "claim" claimed
                              ("Claimed creator fees: "
                                ++ toString claimed ++ " SOL")
                              (some csig) env.now
                            :: s.tx).take 50).take 50).take 50 }, none) := by
      unfold process_goal_if_crossed
      dsimp only
      rw [if_neg (not_le.mpr hcross), hclaim]
      dsimp only
      rw [if_neg (not_le.mpr hpos), hbb]
      dsimp only
      rw [hbr]
      exact rfl
    rw [hp]
    exact ⟨rfl, supply_pct_round s.supply_burned_pct k hpct, rfl,
      fun h2 => mk_tx_record_status_of_ne h2 _ _ _ _, rfl⟩
  · intro m hburn
    have hbr : burn_recently_bought env.burnEnv = Except.ok none := by
      unfold burn_recently_bought
      rw [hburn]
    have hp : process_goal_if_crossed s cfg env
        = ({ s with
              last_goal_bucket := Rat.floor (s.market_cap_usd / GOAL_STEP),
              buybacks_usd := s.buybacks_usd
                + pyRound (claimed * (1/4)) 6 * s.price_usd,
              burned_usd := s.burned_usd
                + pyRound (claimed * (1/4)) 6 * s.price_usd,
              supply_burned_pct :=
                pyRound (min 100 (s.supply_burned_pct + 1/20)) 4,
              tx := (mk_tx_record "burn" (pyRound (claimed * (1/4)) 6)
                      ("Burned tokens bought with "
                        ++ toString (pyRound (claimed * (1/4)) 6) ++ " SOL")
                      none env.now
                    :: (mk_tx_record "buyback" (pyRound (claimed * (1/4)) 6)
                          ("Executed buy-back of "
                            ++ toString (pyRound (claimed * (1/4)) 6) ++ " SOL")
                          (some bsig) env.now
                        :: (mk_tx_record "claim" claimed
                              ("Claimed creator fees: "
                                ++ toString claimed ++ " SOL")
                              (some csig) env.now
                            :: s.tx).take 50).take 50).take 50 }, none) := by
      unfold process_goal_if_crossed
      dsimp only
      rw [if_neg (not_le.mpr hcross), hclaim]
      dsimp only
      rw [if_neg (not_le.mpr hpos), hbb]
      dsimp only
      rw [hbr]
      exact rfl
    rw [hp]
    exact ⟨rfl, supply_pct_round s.supply_burned_pct k hpct, rfl, rfl, rfl⟩
  · intro m hburn
    have hbr : burn_recently_bought env.burnEnv
        = Except.error (PyExc.systemExit m) := by
      unfold burn_recently_bought
      rw [hburn]
    have hp : process_goal_if_crossed s cfg env
        = ({ s with
              last_goal_bucket := Rat.floor (s.market_cap_usd / GOAL_STEP),
              buybacks_usd := s.buybacks_usd
                + pyRound (claimed * (1/4)) 6 * s.price_usd,
              tx := (mk_tx_record "buyback" (pyRound (claimed * (1/4)) 6)
                      ("Executed buy-back of "
                        ++ toString (pyRound (claimed * (1/4)) 6) ++ " SOL")
                      (some bsig) env.now
                    :: (mk_tx_record "claim" claimed
                          ("Claimed creator fees: "
                            ++ toString claimed ++ " SOL")
                          (some csig) env.now
                        :: s.tx).take 50).take 50 },
            some (PyExc.systemExit m)) := by
      unfold process_goal_if_crossed
      dsimp only
      rw [if_neg (not_le.mpr hcross), hclaim]
      dsimp only
      rw [if_neg (not_le.mpr hpos), hbb]
      dsimp only
      rw [hbr]
      exact rfl
    rw [hp]
    exact ⟨rfl, rfl, rfl⟩

/-- C3 witness: claim of 8 SOL, buyback of 2 SOL at price 3, successful
burn: `burned_usd` gains 6 and `supply_burned_pct` 0.05. -/
theorem C3_burn_stage_outcomes_witness :
    (process_goal_if_crossed sB cfgA envOk).1.burned_usd
        = sB.burned_usd + pyRound (8 * (1/4)) 6 * sB.price_usd
    ∧ (process_goal_if_crossed sB cfgA envOk).1.supply_burned_pct
        = min 100 (sB.supply_burned_pct + 1/20)
    ∧ (process_goal_if_crossed sB cfgA envOk).2 = none := by
  have h := (C3_burn_stage_outcomes sB cfgA envOk "csig" 8 "buysig" 0
    (by with_unfolding_all decide) (by with_unfolding_all rfl)
    (by with_unfolding_all decide) (by with_unfolding_all rfl)
    (by with_unfolding_all rfl)).1 "bsig" (by with_unfolding_all rfl)
  exact ⟨h.1, h.2.1, h.2.2.2.2⟩

/-- C4 counterexample: when the claim stage returns 0 claimed SOL, the
appended buyback record has amount 0 but its description is the literal
"No buyback (claimed 0 SOL)", not "no buyback" as claimed. -/
theorem C4_counterexample :
    (process_goal_if_crossed sB cfgA envClaimZero).1.tx.head?
        = some (mk_tx_record "buyback" 0 "No buyback (claimed 0 SOL)" none "T1")
    ∧ (mk_tx_record "buyback" 0 "No buyback (claimed 0 SOL)" none "T1").amount_sol = 0
    ∧ (mk_tx_record "buyback" 0 "No buyback (claimed 0 SOL)" none "T1").description
        ≠ "no buyback" := by
  refine ⟨by with_unfolding_all rfl, rfl, by decide⟩

/-- C4 amended: with a crossing and a successful claim of `claimed` SOL,
the buy amount is `round(claimed * 0.25, 6)`.  If it is ≤ 0 the cycle
stops after appending a buyback record with amount 0 and description
"No buyback (claimed 0 SOL)" — no burn record, counters untouched.  If
the buy submission succeeds, a buyback record with the buy signature is
in the log (status "confirmed" when the signature is non-empty) and
`buybacks_usd` grows by exactly `buyAmount * price_usd`, whatever the
burn stage then does. -/
theorem C4_buyback_stage
    (s : DashState) (cfg : Config) (env : PipeEnv) (csig : String)
    (claimed : ℚ)
    (hcross : s.last_goal_bucket < Rat.floor (s.market_cap_usd / GOAL_STEP))
    (hclaim : claim_creator_fees cfg env.claimEnv = Except.ok (csig, claimed)) :
    (pyRound (claimed * (1/4)) 6 ≤ 0 →
        process_goal_if_crossed s cfg env
          = ({ s with
                last_goal_bucket := Rat.floor (s.market_cap_usd / GOAL_STEP),
                tx := (mk_tx_record "buyback" 0 "No buyback (claimed 0 SOL)" none env.now
                        :: (mk_tx_record "claim" claimed
                              ("Claimed creator fees: " ++ toString claimed ++ " SOL")
                              (some csig) env.now :: s.tx).take 50).take 50 }, none))
    ∧ (∀ bsig, 0 < pyRound (claimed * (1/4)) 6 →
        env.buyTrade (pyRound (claimed * (1/4)) 6) = Except.ok bsig →
        (process_goal_if_crossed s cfg env).1.buybacks_usd
            = s.buybacks_usd + pyRound (claimed * (1/4)) 6 * s.price_usd
        ∧ mk_tx_record "buyback" (pyRound (claimed * (1/4)) 6)
            ("Executed buy-back of " ++ toString (pyRound (claimed * (1/4)) 6) ++ " SOL")
            (some bsig) env.now ∈ (process_goal_if_crossed s cfg env).1.tx
        ∧ (bsig ≠ "" →
            (mk_tx_record "buyback" (pyRound (claimed * (1/4)) 6)
              ("Executed buy-back of " ++ toString (pyRound (claimed * (1/4)) 6) ++ " SOL")
              (some bsig) env.now).status = "confirmed")) := by
  constructor
  · intro hB
    unfold process_goal_if_crossed
    dsimp only
    rw [if_neg (not_le.mpr hcross), hclaim]
    dsimp only
    rw [if_pos hB]
    exact rfl
  · intro bsig hpos hbuy
    have hbb : buy_back_sol (pyRound (claimed * (1/4)) 6) env.buyTrade
        = Except.ok bsig := by
      rw [buy_back_sol_pos hpos]
      exact hbuy
    rcases hbr : burn_recently_bought env.burnEnv with e | osig
    · rcases e with m | m
      · have hp : process_goal_if_crossed s cfg env
            = (push_tx { s with
                  last_goal_bucket := Rat.floor (s.market_cap_usd / GOAL_STEP),
                  buybacks_usd := s.buybacks_usd
                    + pyRound (claimed * (1/4)) 6 * s.price_usd,
                  tx := (mk_tx_record "buyback" (pyRound (claimed * (1/4)) 6)
                          ("Executed buy-back of "
                            ++ toString (pyRound (claimed * (1/4)) 6) ++ " SOL")
                          (some bsig) env.now
                        :: (mk_tx_record "claim" claimed
                              ("Claimed creator fees: "
                                ++ toString claimed ++ " SOL")
                              (some csig) env.now
                            :: s.tx).take 50).take 50 }
                "burn" 0 ("Burn failed: " ++ m) none env.now, none) := by
          unfold process_goal_if_crossed
          dsimp only
          rw [if_neg (not_le.mpr hcross), hclaim]
          dsimp only
          rw [if_neg (not_le.mpr hpos), hbb]
          dsimp only
          rw [hbr]
          exact rfl
        rw [hp]
        exact ⟨rfl, List.Mem.tail _ (List.Mem.head _),
          fun h2 => mk_tx_record_status_of_ne h2 _ _ _ _⟩
      · have hp : process_goal_if_crossed s cfg env
            = ({ s with
                  last_goal_bucket := Rat.floor (s.market_cap_usd / GOAL_STEP),
                  buybacks_usd := s.buybacks_usd
                    + pyRound (claimed * (1/4)) 6 * s.price_usd,
                  tx := (mk_tx_record "buyback" (pyRound (claimed * (1/4)) 6)
                          ("Executed buy-back of "
                            ++ toString (pyRound (claimed * (1/4)) 6) ++ " SOL")
                          (some bsig) env.now
                        :: (mk_tx_record "claim" claimed
                              ("Claimed creator fees: "
                                ++ toString claimed ++ " SOL")
                              (some csig) env.now
                            :: s.tx).take 50).take 50 },
                some (PyExc.systemExit m)) := by
          unfold process_goal_if_crossed
          dsimp only
          rw [if_neg (not_le.mpr hcross), hclaim]
          dsimp only
          rw [if_neg (not_le.mpr hpos), hbb]
          dsimp only
          rw [hbr]
          exact rfl
        rw [hp]
        exact ⟨rfl, List.Mem.head _,
          fun h2 => mk_tx_record_status_of_ne h2 _ _ _ _⟩
    · have hp : process_goal_if_crossed s cfg env
          = ({ (push_tx { s with
                  last_goal_bucket := Rat.floor (s.market_cap_usd / GOAL_STEP),
                  buybacks_usd := s.buybacks_usd
                    + pyRound (claimed * (1/4)) 6 * s.price_usd,
                  tx := (mk_tx_record "buyback" (pyRound (claimed * (1/4)) 6)
                          ("Executed buy-back of "
                            ++ toString (pyRound (claimed * (1/4)) 6) ++ " SOL")
                          (some bsig) env.now
                        :: (mk_tx_record "claim" claimed
                              ("Claimed creator fees: "
                                ++ toString claimed ++ " SOL")
                              (some csig) env.now
                            :: s.tx).take 50).take 50 }
                "burn" (pyRound (claimed * (1/4)) 6)
                ("Burned tokens bought with "
                  ++ toString (pyRound (claimed * (1/4)) 6) ++ " SOL") osig env.now) with
              burned_usd := s.burned_usd + pyRound (claimed * (1/4)) 6 * s.price_usd,
              supply_burned_pct :=
                pyRound (min 100 (s.supply_burned_pct + 1/20)) 4 }, none) := by
        unfold process_goal_if_crossed
        dsimp only
        rw [if_neg (not_le.mpr hcross), hclaim]
        dsimp only
        rw [if_neg (not_le.mpr hpos), hbb]
        dsimp only
        rw [hbr]
        exact rfl
      rw [hp]
      exact ⟨rfl, List.Mem.tail _ (List.Mem.head _),
        fun h2 => mk_tx_record_status_of_ne h2 _ _ _ _⟩

/-- C4 witness: a claim of 0 SOL yields the amount-0 "No buyback
(claimed 0 SOL)" record and stops; no burn record exists in the log. -/
theorem C4_buyback_stage_witness :
    process_goal_if_crossed sB cfgA envClaimZero
      = ({ sB with
            last_goal_bucket := Rat.floor (sB.market_cap_usd / GOAL_STEP),
            tx := (mk_tx_record "buyback" 0 "No buyback (claimed 0 SOL)" none
                    envClaimZero.now
                    :: (mk_tx_record "claim" 0
                          ("Claimed creator fees: " ++ toString (0 : ℚ) ++ " SOL")
                          (some "csig") envClaimZero.now :: sB.tx).take 50).take 50 },
          none) :=
  (C4_buyback_stage sB cfgA envClaimZero "csig" 0
    (by with_unfolding_all decide) (by with_unfolding_all rfl)).1
    (by with_unfolding_all decide)


/-- C8 counterexample: `push_tx` called with the empty-string signature
(Python truthiness: `"" is falsy`) creates a record whose signature is
non-null yet whose status is "recorded", refuting "status is confirmed iff
signature is non-null". -/
theorem C8_counterexample :
    (push_tx sEmpty "burn" 1 "d" (some "") "t").tx.head?
        = some (mk_tx_record "burn" 1 "d" (some "") "t")
    ∧ (mk_tx_record "burn" 1 "d" (some "") "t").signature ≠ none
    ∧ (mk_tx_record "burn" 1 "d" (some "") "t").status ≠ "confirmed" := by
  refine ⟨rfl, by decide, by decide⟩

/-- C8 amended: a record created by `push_tx` has status "confirmed"
exactly when its signature is present AND non-empty (Python's string
truthiness); with a null or empty signature the status is "recorded". -/
theorem C8_status_confirmed_iff_truthy_signature (s : DashState)
    (kind : String) (amount_sol : ℚ) (desc : String) (sig : Option String)
    (ts : String) :
    (push_tx s kind amount_sol desc sig ts).tx.head?
        = some (mk_tx_record kind amount_sol desc sig ts)
    ∧ ((mk_tx_record kind amount_sol desc sig ts).status = "confirmed"
        ↔ ∃ t, sig = some t ∧ t ≠ "") := by
  refine ⟨rfl, ?_⟩
  unfold mk_tx_record pyTruthy
  rcases sig with _ | t
  · simp only []
    constructor
    · intro h
      exact absurd h (by decide)
    · rintro ⟨t, ht, _⟩
      exact absurd ht (by simp)
  · by_cases ht : t = ""
    · subst ht
      simp only [String.isEmpty_iff]
      constructor
      · intro h
        exact absurd h (by decide)
      · rintro ⟨u, hu, hne⟩
        simp only [Option.some.injEq] at hu
        exact absurd hu.symm hne
    · have hne : t.isEmpty = false := by
        cases htb : t.isEmpty
        · rfl
        · exact absurd ((String.isEmpty_iff t).1 htb) ht
      simp only [hne]
      constructor
      · intro _
        exact ⟨t, rfl, ht⟩
      · intro _
        rfl


/-- Bounds on the within-bucket remainder: `bucket_start ≤ mc` and
`mc - bucket_start < GOAL_STEP`, for every market cap (negative included,
since Python's `//` is floor division). -/
lemma sub_floor_bounds (mc : ℚ) :
    0 ≤ mc - (Rat.floor (mc / GOAL_STEP) : ℚ) * GOAL_STEP
    ∧ mc - (Rat.floor (mc / GOAL_STEP) : ℚ) * GOAL_STEP < GOAL_STEP := by
  have hstep : (0:ℚ) < GOAL_STEP := by norm_num [GOAL_STEP]
  constructor
  · have h := Int.floor_le (mc / GOAL_STEP)
    rw [ratFloor_eq_intFloor]
    have h2 : (⌊mc / GOAL_STEP⌋ : ℚ) * GOAL_STEP ≤ (mc / GOAL_STEP) * GOAL_STEP :=
      mul_le_mul_of_nonneg_right h (le_of_lt hstep)
    rw [div_mul_cancel₀ _ (ne_of_gt hstep)] at h2
    linarith
  · have h := Int.lt_floor_add_one (mc / GOAL_STEP)
    rw [ratFloor_eq_intFloor]
    have h2 : (mc / GOAL_STEP) * GOAL_STEP < ((⌊mc / GOAL_STEP⌋ : ℚ) + 1) * GOAL_STEP :=
      mul_lt_mul_of_pos_right h hstep
    rw [div_mul_cancel₀ _ (ne_of_gt hstep)] at h2
    nlinarith [h2]

/-- Range and zero-characterisation of the rounded, clamped progress value
computed by the dashboard, as a function of the within-bucket remainder. -/
lemma progress_round_props {r : ℚ} (h0 : 0 ≤ r) (h1 : r < GOAL_STEP) :
    0 ≤ pyRound (max 0 (min 100 (r / GOAL_STEP * 100))) 2
    ∧ pyRound (max 0 (min 100 (r / GOAL_STEP * 100))) 2 ≤ 100
    ∧ (pyRound (max 0 (min 100 (r / GOAL_STEP * 100))) 2 = 0 ↔ r ≤ 5) := by
  have hGS : GOAL_STEP = 100000 := rfl
  rw [hGS] at h1 ⊢
  have e1 : r / 100000 * 100 = r / 1000 := by ring
  have hlt : r / 1000 < 100 := by
    rw [div_lt_iff (by norm_num : (0:ℚ) < 1000)]
    linarith
  have hge : 0 ≤ r / 1000 := by positivity
  have e2 : max 0 (min 100 (r / 100000 * 100)) = r / 1000 := by
    rw [e1, min_eq_right (le_of_lt hlt), max_eq_right hge]
  rw [e2]
  have hge10 : 0 ≤ r / 10 := by positivity
  have hle10 : r / 10 ≤ ((10000 : ℤ) : ℚ) := by
    push_cast
    rw [div_le_iff (by norm_num : (0:ℚ) < 10)]
    linarith
  unfold pyRound
  have e3 : r / 1000 * 10 ^ (2:ℕ) = r / 10 := by ring
  rw [e3]
  refine ⟨?_, ?_, ?_⟩
  · apply div_nonneg _ (by norm_num)
    exact_mod_cast roundHalfEven_nonneg hge10
  · rw [div_le_iff (by norm_num : (0:ℚ) < 10 ^ (2:ℕ))]
    have h := roundHalfEven_le_of_le hle10
    calc ((roundHalfEven (r/10) : ℤ) : ℚ) ≤ ((10000:ℤ):ℚ) := by exact_mod_cast h
      _ = 100 * 10 ^ (2:ℕ) := by norm_num
  · rw [div_eq_zero_iff]
    constructor
    · rintro (hz | habs)
      · have hz2 : roundHalfEven (r/10) = 0 := by exact_mod_cast hz
        have h12 := (roundHalfEven_eq_zero_iff hge10).1 hz2
        linarith
      · exact absurd habs (by norm_num)
    · intro h5
      left
      have h12 : r / 10 ≤ 1/2 := by linarith
      have hz := (roundHalfEven_eq_zero_iff hge10).2 h12
      rw [hz]
      norm_num

/-- C6 counterexample: at market cap $1 the dashboard read returns
`next_goal_progress_pct = 0` (the exact progress 0.001% rounds to two
decimals as 0.0), yet 1 is not a multiple of 100,000 — refuting "equals 0
exactly when market_cap_usd is a multiple of 100,000". -/
theorem C6_counterexample :
    (get_dashboard sMc1 0 cfgA menvQuiet envOk).2
        = Except.ok (⟨0, 0, 0, 0, 1, 100000, 0, 0, [], "MINT"⟩ : Dashboard)
    ∧ ¬ (∃ k : ℤ, (1 : ℚ) = (k : ℚ) * 100000) := by
  constructor
  · with_unfolding_all rfl
  · rintro ⟨k, hk⟩
    rcases le_or_lt k 0 with hk0 | hk1
    · have hkq : (k:ℚ) ≤ 0 := by exact_mod_cast hk0
      nlinarith [hk, hkq]
    · have hkq : (1:ℚ) ≤ (k:ℚ) := by exact_mod_cast hk1
      nlinarith [hk, hkq]

/-- C6 amended: whenever the dashboard read returns a body, its
`next_goal_progress_pct` lies in [0, 100], and it equals 0 exactly when
the market cap is at most $5 above a multiple of $100,000 (i.e. the
remainder `mc - 100000 * floor(mc / 100000)` is ≤ 5; the unrounded
progress is 0 exactly at multiples, but the 2-decimal rounding also maps
remainders up to 5 to 0). -/
theorem C6_progress_range_and_zero
    (s : DashState) (lastT : ℚ) (cfg : Config) (menv : MarketEnv)
    (penv : PipeEnv) (p : DashState × ℚ) (dash : Dashboard)
    (h : get_dashboard s lastT cfg menv penv = (p, Except.ok dash)) :
    0 ≤ dash.next_goal_progress_pct ∧ dash.next_goal_progress_pct ≤ 100
    ∧ (dash.next_goal_progress_pct = 0
        ↔ dash.market_cap_usd
            - (Rat.floor (dash.market_cap_usd / GOAL_STEP) : ℚ) * GOAL_STEP ≤ 5) := by
  unfold get_dashboard at h
  dsimp only at h
  rcases hx : (process_goal_if_crossed (refresh_market_data s lastT cfg menv).1 cfg penv).2
    with _ | e
  · rw [hx] at h
    dsimp only at h
    have hd := congrArg Prod.snd h
    dsimp only at hd
    have hdash := Except.ok.inj hd
    subst hdash
    dsimp only
    have hif : ¬ GOAL_STEP ≤ 0 := by norm_num [GOAL_STEP]
    rw [if_neg hif]
    obtain ⟨hb0, hb1⟩ := sub_floor_bounds
      (process_goal_if_crossed (refresh_market_data s lastT cfg menv).1 cfg penv).1.market_cap_usd
    exact progress_round_props hb0 hb1
  · rw [hx] at h
    dsimp only at h
    have hd := congrArg Prod.snd h
    dsimp only at hd
    exact absurd hd (by simp)

/-- C6 witness: the returned dashboard at market cap $1 satisfies the
range bounds and the remainder-based zero characterisation. -/
theorem C6_progress_range_and_zero_witness :
    0 ≤ (⟨0, 0, 0, 0, 1, 100000, 0, 0, [], "MINT"⟩ : Dashboard).next_goal_progress_pct
    ∧ (⟨0, 0, 0, 0, 1, 100000, 0, 0, [], "MINT"⟩ : Dashboard).next_goal_progress_pct ≤ 100
    ∧ ((⟨0, 0, 0, 0, 1, 100000, 0, 0, [], "MINT"⟩ : Dashboard).next_goal_progress_pct = 0
        ↔ (⟨0, 0, 0, 0, 1, 100000, 0, 0, [], "MINT"⟩ : Dashboard).market_cap_usd
            - (Rat.floor ((⟨0, 0, 0, 0, 1, 100000, 0, 0, [], "MINT"⟩ : Dashboard).market_cap_usd
                / GOAL_STEP) : ℚ) * GOAL_STEP ≤ 5) :=
  C6_progress_range_and_zero sMc1 0 cfgA menvQuiet envOk (sMc1, 0)
    (⟨0, 0, 0, 0, 1, 100000, 0, 0, [], "MINT"⟩ : Dashboard)
    (by with_unfolding_all rfl)

/-- C9: the market-data refresh touches only `price_usd` (rounded to 8
decimals) and `market_cap_usd` (rounded to 2), and only on a successful
fetch; it is a no-op within 20 seconds of the last successful refresh,
with no API key configured, or on any request/parse failure, and being a
total function it never raises to its caller. -/
theorem C9_refresh_market_data_frame
    (s : DashState) (lastT : ℚ) (cfg : Config) (env : MarketEnv) :
    ((refresh_market_data s lastT cfg env).1.volume_change_pct = s.volume_change_pct
      ∧ (refresh_market_data s lastT cfg env).1.buybacks_usd = s.buybacks_usd
      ∧ (refresh_market_data s lastT cfg env).1.burned_usd = s.burned_usd
      ∧ (refresh_market_data s lastT cfg env).1.supply_burned_pct = s.supply_burned_pct
      ∧ (refresh_market_data s lastT cfg env).1.last_goal_bucket = s.last_goal_bucket
      ∧ (refresh_market_data s lastT cfg env).1.tx = s.tx)
    ∧ (env.now - lastT < 20 → refresh_market_data s lastT cfg env = (s, lastT))
    ∧ (cfg.helius_api_key = "" → refresh_market_data s lastT cfg env = (s, lastT))
    ∧ (∀ m, env.fetch = Except.error m → refresh_market_data s lastT cfg env = (s, lastT))
    ∧ (∀ d, ¬ env.now - lastT < 20 → cfg.helius_api_key ≠ "" →
        env.fetch = Except.ok d →
        refresh_market_data s lastT cfg env
          = ({ s with
                price_usd := pyRound (d.price_per_token.getD 0) 8,
                market_cap_usd := pyRound (d.price_per_token.getD 0
                  * (d.supply.getD 0 / (10 : ℚ) ^ d.decimals.getD 0)) 2 }, env.now)) := by
  refine ⟨?_, ?_, ?_, ?_, ?_⟩
  · unfold refresh_market_data
    dsimp only
    split
    · exact ⟨rfl, rfl, rfl, rfl, rfl, rfl⟩
    · split
      · exact ⟨rfl, rfl, rfl, rfl, rfl, rfl⟩
      · split
        · exact ⟨rfl, rfl, rfl, rfl, rfl, rfl⟩
        · exact ⟨rfl, rfl, rfl, rfl, rfl, rfl⟩
  · intro h
    unfold refresh_market_data
    dsimp only
    rw [if_pos h]
  · intro h
    unfold refresh_market_data
    dsimp only
    rw [if_pos h]
    split
    all_goals rfl
  · intro m hm
    unfold refresh_market_data
    dsimp only
    rw [hm]
    split
    all_goals try split
    all_goals rfl
  · intro d h1 h2 hd
    unfold refresh_market_data
    dsimp only
    rw [if_neg h1, if_neg h2, hd]

/-- C9 witness: a successful fetch past the TTL stores rounded price and
market cap and advances the cache timestamp; all other fields as before. -/
theorem C9_refresh_market_data_frame_witness :
    refresh_market_data sEmpty 0 cfgK menvFresh
      = ({ sEmpty with
            price_usd := pyRound ((3:ℚ)/2) 8,
            market_cap_usd := pyRound ((3:ℚ)/2 * (1000000 / (10 : ℚ) ^ ((2:ℤ)))) 2 }, 30) :=
  (C9_refresh_market_data_frame sEmpty 0 cfgK menvFresh).2.2.2.2
    ⟨some (3/2), some 1000000, some 2⟩
    (by with_unfolding_all decide) (by decide) (by with_unfolding_all rfl)


end Tolkien
